import Mathlib

/-!
Shallow embedding of the berkeleytime rating aggregation core
(the backend rating controller: `createRating`, `createRatings`, `deleteRating`,
`deleteRatings`, `handleCategoryCountChange`, `handleExistingRating`,
`createNewRating`, the TTL caches with `getCachedValue` / `setCachedValue` /
`invalidateRatingsCaches`, and the read path `getCourseAggregatedRatings`).

The database (Mongo collections `RatingModel`, `AggregatedMetricsModel`) is
embedded as lists of rows; `findOne` becomes `List.find?` (first match),
`deleteOne` deletes by the unique `_id`, `updateOne`/`save` update the first
matching row in place.  A `withTransaction` block is embedded by running its
body on the state and, on error, restoring the database part of the state
(rollback) while keeping effects that escape the transaction (the module-level
caches, which the code mutates directly).  An event trace records transaction
starts, commits and cache invalidations so that ordering properties can be
stated.
-/

deriving instance DecidableEq for Except

/-- Error codes used in `GraphQLError` `extensions.code` fields, plus the two
codes the spec's taxonomy names that only arise in parts of the repository
that are modelled from the spec (`CONSTRAINT_VIOLATION`, `INVARIANT_VIOLATION`). -/
inductive ErrCode where
  | UNAUTHENTICATED
  | NOT_FOUND
  | INVALID_ARGUMENT
  | BAD_USER_INPUT
  | CONSTRAINT_VIOLATION
  | INVARIANT_VIOLATION
deriving DecidableEq

/-- A thrown `GraphQLError`: message and `extensions.code`. -/
structure Err where
  msg : String
  code : ErrCode
deriving DecidableEq

/-- Modelled from the spec: the metric catalogue `METRIC_MAPPINGS` lives in the
`@repo/shared` package, which is not under src/.  The spec has rating-scale
metrics (integer domain 1 to 5) and boolean metrics (domain 0 or 1); the
glossary names difficulty and usefulness as example dimensions. -/
inductive MetricName where
  | Usefulness
  | Difficulty
  | Workload
  | Attendance
  | Recording
deriving DecidableEq

/-- Modelled from the spec: the `isRating` flag of each `METRIC_MAPPINGS` entry
(rating-scale metric vs boolean metric). -/
def metricIsRating : MetricName → Bool
  | .Usefulness => true
  | .Difficulty => true
  | .Workload => true
  | .Attendance => false
  | .Recording => false

/-- All metrics of the catalogue (the entries of `METRIC_MAPPINGS`). -/
def allMetrics : List MetricName :=
  [.Usefulness, .Difficulty, .Workload, .Attendance, .Recording]

/-- `numberScaleMetrics`: the catalogue entries whose config has `isRating`. -/
def numberScaleMetrics : List MetricName :=
  allMetrics.filter (fun m => metricIsRating m)

/-- `booleanScaleMetrics`: the catalogue entries whose config lacks `isRating`. -/
def booleanScaleMetrics : List MetricName :=
  allMetrics.filter (fun m => !(metricIsRating m))

/-- One durable `Rating` document. -/
structure Rating where
  id : Nat
  createdBy : String
  classId : Nat
  courseId : String
  subject : String
  courseNumber : String
  classNumber : String
  semester : String
  year : Int
  metricName : MetricName
  value : Int
deriving DecidableEq

/-- One `AggregatedMetrics` document (denormalized counter row). -/
structure AggRow where
  classId : Nat
  courseId : String
  subject : String
  courseNumber : String
  semester : String
  year : Int
  classNumber : String
  metricName : MetricName
  categoryValue : Int
  categoryCount : Int
deriving DecidableEq

/-- The two mutable collections of the core plus the id counter used to give
created `Rating` documents fresh `_id`s. -/
structure DB where
  ratings : List Rating
  aggs : List AggRow
  nextId : Nat
deriving DecidableEq

/-- An external `Class` document; the core only reads its identifiers. -/
structure ClassDoc where
  classId : Nat
  courseId : String
  subject : String
  courseNumber : String
  classNumber : String
  semester : String
  year : Int
deriving DecidableEq

/-- Read-only environment: the external `Class` collection, and the two
configuration values of parts modelled from the spec (the per-user distinct
rated course ceiling of `checkUserMaxRatingsConstraint`, and the
`REQUIRED_METRICS` list of the shared package). -/
structure Env where
  classes : List ClassDoc
  maxRatingsPerUser : Nat
  requiredMetrics : List MetricName
deriving DecidableEq

/-- One entry of a TTL cache map: the cached value and its expiry instant. -/
structure CacheEntry (V : Type) where
  value : V
  expiresAt : Int
deriving DecidableEq

/-- A `Map<string, CacheEntry<V>>` as an association list with unique keys. -/
abbrev Cache (V : Type) := List (String × CacheEntry V)

/-- Observable events of one mutation: transaction start, transaction commit,
and a call to `invalidateRatingsCaches` for a courseId. -/
inductive Event where
  | txnStart
  | txnCommit
  | cacheInvalidate (courseId : String)
deriving DecidableEq

/-- The whole mutable state: database, the three module-level caches
(course aggregate, semesters-with-ratings, instructor aggregate), and the
event trace. -/
structure SysState (V W U : Type) where
  db : DB
  courseCache : Cache V
  semCache : Cache W
  instrCache : Cache U
  trace : List Event
deriving DecidableEq

def COURSE_AGGREGATED_RATINGS_TTL_MS : Int := 2 * 60 * 1000

def SEMESTER_RATINGS_TTL_MS : Int := 5 * 60 * 1000

def INSTRUCTOR_RATINGS_TTL_MS : Int := 5 * 60 * 1000

section CacheOps

variable {V W U : Type}

/-- `getCachedValue`: return the entry's value unless `Date.now() > expiresAt`,
in which case the stale entry is deleted and the read reports a miss.  Returns
the value (if any) and the possibly updated cache map. -/
def getCachedValue (now : Int) (cache : Cache V) (key : String) :
    Option V × Cache V :=
  match cache.find? (fun p => decide (p.1 = key)) with
  | none => (none, cache)
  | some (_, e) =>
      if e.expiresAt < now then
        (none, cache.filter (fun p => !(decide (p.1 = key))))
      else
        (some e.value, cache)

/-- `setCachedValue`: store `value` under `key` with `expiresAt = now + ttl`. -/
def setCachedValue (now : Int) (cache : Cache V) (key : String) (v : V)
    (ttl : Int) : Cache V :=
  (key, ⟨v, now + ttl⟩) :: cache.filter (fun p => !(decide (p.1 = key)))

/-- Insert a string into a sorted list (model of the sorted order produced by
`localeCompare`, here code-point order). -/
def insertSorted (s : String) : List String → List String
  | [] => [s]
  | t :: rest => if s ≤ t then s :: t :: rest else t :: insertSorted s rest

/-- Sort a list of strings (insertion sort). -/
def sortStrings : List String → List String
  | [] => []
  | s :: rest => insertSorted s (sortStrings rest)

/-- `getMetricNamesKey`: "all" for no filter, otherwise the sorted metric names
joined with commas. -/
def getMetricNamesKey (metricNames : Option (List String)) : String :=
  match metricNames with
  | none => "all"
  | some [] => "all"
  | some ms => String.intercalate "," (sortStrings ms)

/-- `invalidateRatingsCaches`: delete every course-aggregate key with the
`courseId + ":"` prefix and the single semesters-with-ratings and instructor
keys equal to `courseId`; records the invalidation event. -/
def invalidateRatingsCaches (courseId : String) (st : SysState V W U) :
    SysState V W U :=
  { st with
    courseCache :=
      st.courseCache.filter (fun p => !((courseId ++ ":").isPrefixOf p.1)),
    semCache := st.semCache.filter (fun p => !(decide (p.1 = courseId))),
    instrCache := st.instrCache.filter (fun p => !(decide (p.1 = courseId))),
    trace := st.trace ++ [Event.cacheInvalidate courseId] }

/-- `getCourseAggregatedRatings`, read path.  The external `CourseModel` lookup
is the parameter `courseIdFound`; `recompute` stands for the
`courseRatingAggregator` plus formatting and filtering pipeline (helper module,
not under src/); `emptyResult` is the empty shape returned when the course does
not exist.  Returns the result and the updated course-aggregate cache. -/
def getCourseAggregatedRatings (now : Int) (courseIdFound : Option String)
    (recompute : String → V) (emptyResult : V)
    (metricNames : Option (List String)) (cache : Cache V) : V × Cache V :=
  match courseIdFound with
  | none => (emptyResult, cache)
  | some cid =>
      let key := cid ++ ":" ++ getMetricNamesKey metricNames
      match getCachedValue now cache key with
      | (some v, c1) => (v, c1)
      | (none, c1) =>
          let result := recompute cid
          (result, setCachedValue now c1 key result
            COURSE_AGGREGATED_RATINGS_TTL_MS)

end CacheOps

/-- Key match predicate of the `AggregatedMetricsModel.findOne` query
`(classId, metricName, categoryValue)`. -/
def aggKey (classId : Nat) (m : MetricName) (cv : Int) (a : AggRow) : Bool :=
  decide (a.classId = classId ∧ a.metricName = m ∧ a.categoryValue = cv)

/-- `AggregatedMetricsModel.findOne({classId, metricName, categoryValue})`. -/
def findAgg (classId : Nat) (m : MetricName) (cv : Int) (aggs : List AggRow) :
    Option AggRow :=
  aggs.find? (aggKey classId m cv)

/-- The count stored for a counter key, zero when no row exists. -/
def lookupCount (aggs : List AggRow) (classId : Nat) (m : MetricName)
    (cv : Int) : Int :=
  match findAgg classId m cv aggs with
  | some a => a.categoryCount
  | none => 0

/-- `metric.save()` after mutating `categoryCount`: replace the first row
matching the key, keeping everything else in place. -/
def setFirstAggCount (classId : Nat) (m : MetricName) (cv : Int) (n : Int) :
    List AggRow → List AggRow
  | [] => []
  | a :: rest =>
      if a.classId = classId ∧ a.metricName = m ∧ a.categoryValue = cv then
        { a with categoryCount := n } :: rest
      else
        a :: setFirstAggCount classId m cv n rest

/-- Membership test used by the `switch`'s `includes` calls. -/
def listHasMetric (m : MetricName) (l : List MetricName) : Bool :=
  l.any (fun x => decide (x = m))

/-- The `valueRange` selected by the `switch` in `handleCategoryCountChange`:
`[1,2,3,4,5]` for rating-scale metrics, `[0,1]` for boolean metrics, none for
an unknown metric name. -/
def metricValueRange (m : MetricName) : Option (List Int) :=
  if listHasMetric m numberScaleMetrics then some [1, 2, 3, 4, 5]
  else if listHasMetric m booleanScaleMetrics then some [0, 1]
  else none

/-- A freshly materialized counter row (the `AggregatedMetricsModel.create`
call of the seeding loop). -/
def mkAggRow (classId : Nat) (courseId subject courseNumber semester : String)
    (year : Int) (classNumber : String) (m : MetricName) (cv : Int)
    (count : Int) : AggRow :=
  ⟨classId, courseId, subject, courseNumber, semester, year, classNumber, m,
    cv, count⟩

/-- `handleCategoryCountChange`.  If a row for the key exists, add the delta and
save it; if none exists and the change is an increment, materialize one row per
category value of the metric's domain, seeding the target value's count to 1
and the others to 0; if none exists and the change is a decrement, fail with a
`NOT_FOUND`-coded error.  The `save` of an updated row runs the store's schema
validation, declared in the `@repo/common/models` package which is not under
src/.  Modelled from the spec for that missing part: `categoryCount` is a
non-negative integer, so a save that would store a negative count fails with
`InvariantViolation`. -/
def handleCategoryCountChange (classId : Nat) (courseId : String) (year : Int)
    (semester subject courseNumber classNumber : String) (m : MetricName)
    (categoryValue : Int) (isIncrement : Bool) (aggs : List AggRow) :
    Except Err (List AggRow) :=
  let delta : Int := if isIncrement then 1 else -1
  match findAgg classId m categoryValue aggs with
  | some row =>
      if row.categoryCount + delta < 0 then
        .error ⟨"categoryCount must be non-negative",
          ErrCode.INVARIANT_VIOLATION⟩
      else
        .ok (setFirstAggCount classId m categoryValue
          (row.categoryCount + delta) aggs)
  | none =>
      if isIncrement then
        match metricValueRange m with
        | some range =>
            .ok (aggs ++ range.map (fun v =>
              mkAggRow classId courseId subject courseNumber semester year
                classNumber m v (if v = categoryValue then 1 else 0)))
        | none => .error ⟨"Invalid metric name", ErrCode.INVALID_ARGUMENT⟩
      else
        .error ⟨"Aggregated Rating does not exist, cannot decrement",
          ErrCode.NOT_FOUND⟩

/-- Modelled from the spec: `checkValueConstraint` lives in the controller's
`helper/checkConstraints` module, which is not under src/.  Spec 4.1: fails
with `InvalidArgument` if the value is outside the metric's declared domain
(rating-scale: integers 1 to 5; boolean: 0 or 1). -/
def checkValueConstraint (m : MetricName) (v : Int) : Except Err Unit :=
  if metricIsRating m then
    if 1 ≤ v ∧ v ≤ 5 then .ok ()
    else .error ⟨"Invalid rating value", ErrCode.INVALID_ARGUMENT⟩
  else
    if v = 0 ∨ v = 1 then .ok ()
    else .error ⟨"Invalid boolean value", ErrCode.INVALID_ARGUMENT⟩

/-- Modelled from the spec: `checkRatingExists` (helper/checkConstraints, not
under src/) returns the live Rating for `(user, subject, courseNumber,
metricName)` or none. -/
def checkRatingExists (userId subject courseNumber : String) (m : MetricName)
    (db : DB) : Option Rating :=
  db.ratings.find? (fun r => decide (r.createdBy = userId ∧
    r.subject = subject ∧ r.courseNumber = courseNumber ∧ r.metricName = m))

/-- The number of distinct courses among a list of the user's ratings. -/
def distinctCourses (rs : List Rating) : Nat :=
  ((rs.map (fun r => (r.subject, r.courseNumber))).dedup).length

/-- Modelled from the spec: `checkUserMaxRatingsConstraint`
(helper/checkConstraints, not under src/) fails with `ConstraintViolation` if
the user has reached the configured ceiling of distinct rated courses, unless
the new rating targets a course the user has already rated. -/
def checkUserMaxRatingsConstraint (maxCourses : Nat)
    (userRatings : List Rating) (subject courseNumber : String) :
    Except Err Unit :=
  if userRatings.any (fun r => decide (r.subject = subject ∧
      r.courseNumber = courseNumber)) then
    .ok ()
  else if maxCourses ≤ distinctCourses userRatings then
    .error ⟨"Maximum number of rated courses reached",
      ErrCode.CONSTRAINT_VIOLATION⟩
  else
    .ok ()

/-- Modelled from the spec: `getUserRatings` aggregates through
`userRatingsAggregator` (helper module, not under src/); for constraint
checking it amounts to the list of the user's Rating rows. -/
def getUserRatingsList (userId : String) (db : DB) : List Rating :=
  db.ratings.filter (fun r => decide (r.createdBy = userId))

/-- `getClassDocument`: `ClassModel.findOne` on the five identifying fields;
throws a `NOT_FOUND`-coded error when the class does not exist. -/
def getClassDocument (env : Env) (year : Int)
    (semester subject courseNumber classNumber : String) :
    Except Err ClassDoc :=
  match env.classes.find? (fun c => decide (c.year = year ∧
      c.semester = semester ∧ c.subject = subject ∧
      c.courseNumber = courseNumber ∧ c.classNumber = classNumber)) with
  | some c => .ok c
  | none => .error ⟨"Class not found", ErrCode.NOT_FOUND⟩

def unauthorizedErr : Err := ⟨"Unauthorized", ErrCode.UNAUTHENTICATED⟩

/-- The fields `createRating` passes to `createNewRating`. -/
structure RatingData where
  classId : Nat
  courseId : String
  year : Int
  semester : String
  subject : String
  courseNumber : String
  classNumber : String
  metricName : MetricName
  value : Int
deriving DecidableEq

/-- `createNewRating`: create the Rating document and increment the counter for
`(classId, metricName, value)`, both in the ambient transaction. -/
def createNewRating (userId : String) (rd : RatingData) (db : DB) :
    Except Err DB :=
  let newRating : Rating :=
    ⟨db.nextId, userId, rd.classId, rd.courseId, rd.subject, rd.courseNumber,
      rd.classNumber, rd.semester, rd.year, rd.metricName, rd.value⟩
  match handleCategoryCountChange rd.classId rd.courseId rd.year rd.semester
      rd.subject rd.courseNumber rd.classNumber rd.metricName rd.value true
      db.aggs with
  | .error e => .error e
  | .ok aggs' =>
      .ok { ratings := db.ratings ++ [newRating], aggs := aggs',
            nextId := db.nextId + 1 }

/-- `handleExistingRating`: same-term revote.  Unchanged value is a no-op;
otherwise update the value in place, decrement the old-value counter and
increment the new-value counter for the same classId. -/
def setFirstRatingValue (rid : Nat) (newValue : Int) :
    List Rating → List Rating
  | [] => []
  | r :: rest =>
      if r.id = rid then { r with value := newValue } :: rest
      else r :: setFirstRatingValue rid newValue rest

def handleExistingRating (existing : Rating) (newValue : Int) (db : DB) :
    Except Err DB :=
  if existing.value = newValue then .ok db
  else
    let db1 : DB :=
      { db with ratings := setFirstRatingValue existing.id newValue db.ratings }
    match handleCategoryCountChange existing.classId existing.courseId
        existing.year existing.semester existing.subject existing.courseNumber
        existing.classNumber existing.metricName existing.value false
        db1.aggs with
    | .error e => .error e
    | .ok a1 =>
        match handleCategoryCountChange existing.classId existing.courseId
            existing.year existing.semester existing.subject
            existing.courseNumber existing.classNumber existing.metricName
            newValue true a1 with
        | .error e => .error e
        | .ok a2 => .ok { db1 with aggs := a2 }

/-- `deleteRatingOperations`: find the Rating by the seven query fields
(`NOT_FOUND` when absent), delete it by `_id` and decrement its counter at its
own classId and value.  Returns the deleted document and the new database. -/
def deleteRatingOperations (userId : String) (year : Int)
    (semester subject courseNumber classNumber : String) (m : MetricName)
    (db : DB) : Except Err (Rating × DB) :=
  match db.ratings.find? (fun r => decide (r.createdBy = userId ∧
      r.subject = subject ∧ r.courseNumber = courseNumber ∧
      r.semester = semester ∧ r.year = year ∧ r.classNumber = classNumber ∧
      r.metricName = m)) with
  | none => .error ⟨"Rating not found", ErrCode.NOT_FOUND⟩
  | some rating =>
      let db1 : DB :=
        { db with ratings :=
            db.ratings.filter (fun r => !(decide (r.id = rating.id))) }
      match handleCategoryCountChange rating.classId rating.courseId year
          semester subject courseNumber classNumber m rating.value false
          db1.aggs with
      | .error e => .error e
      | .ok aggs' => .ok (rating, { db1 with aggs := aggs' })

section MutationOps

variable {V W U : Type}

/-- `deleteRating`.  With `nested := true` (an existing session was passed) the
operations run inside the caller's transaction; otherwise a new transaction
wraps them.  In both modes, after the operations succeed the caches of the
deleted rating's courseId are invalidated. -/
def deleteRating (nested : Bool) (userId : String) (year : Int)
    (semester subject courseNumber classNumber : String) (m : MetricName)
    (st : SysState V W U) : Except Err Bool × SysState V W U :=
  if userId = "" then (.error unauthorizedErr, st)
  else if nested then
    match deleteRatingOperations userId year semester subject courseNumber
        classNumber m st.db with
    | .error e => (.error e, st)
    | .ok (r, db') =>
        (.ok true, invalidateRatingsCaches r.courseId { st with db := db' })
  else
    let st0 : SysState V W U := { st with trace := st.trace ++ [Event.txnStart] }
    match deleteRatingOperations userId year semester subject courseNumber
        classNumber m st0.db with
    | .error e => (.error e, st0)
    | .ok (r, db') =>
        (.ok true, invalidateRatingsCaches r.courseId
          { st0 with db := db', trace := st0.trace ++ [Event.txnCommit] })

/-- The body of `createRating`'s `withTransaction` block: create, same-term
update, or different-term replace (nested delete + create). -/
def createRatingTxnBody (userId : String) (cd : ClassDoc) (year : Int)
    (semester subject courseNumber classNumber : String) (m : MetricName)
    (value : Int) (s : SysState V W U) : Except Err Unit × SysState V W U :=
  match checkRatingExists userId subject courseNumber m s.db with
  | none =>
      match createNewRating userId
          ⟨cd.classId, cd.courseId, year, semester, subject, courseNumber,
            classNumber, m, value⟩ s.db with
      | .error e => (.error e, s)
      | .ok db' => (.ok (), { s with db := db' })
  | some existing =>
      if existing.semester ≠ semester ∨ existing.year ≠ year ∨
          existing.classNumber ≠ classNumber then
        match deleteRating true userId existing.year existing.semester
            existing.subject existing.courseNumber existing.classNumber
            existing.metricName s with
        | (.error e, s') => (.error e, s')
        | (.ok _, s') =>
            match createNewRating userId
                ⟨cd.classId, cd.courseId, year, semester, subject,
                  courseNumber, classNumber, m, value⟩ s'.db with
            | .error e => (.error e, s')
            | .ok db' => (.ok (), { s' with db := db' })
      else
        match handleExistingRating existing value s.db with
        | .error e => (.error e, s)
        | .ok db' => (.ok (), { s with db := db' })

/-- `createRating`: authentication, value constraint, class lookup, per-user
ceiling, then the transaction; on commit, invalidate the caches of the class's
courseId.  On a failure inside the transaction the database rolls back and
the error propagates; cache mutations performed inside the transaction body
(by the nested `deleteRating`) are module-level and are not rolled back. -/
def createRating (userId : String) (env : Env) (year : Int)
    (semester subject courseNumber classNumber : String) (m : MetricName)
    (value : Int) (st : SysState V W U) : Except Err Bool × SysState V W U :=
  if userId = "" then (.error unauthorizedErr, st)
  else
    match checkValueConstraint m value with
    | .error e => (.error e, st)
    | .ok _ =>
        match getClassDocument env year semester subject courseNumber
            classNumber with
        | .error e => (.error e, st)
        | .ok cd =>
            match checkUserMaxRatingsConstraint env.maxRatingsPerUser
                (getUserRatingsList userId st.db) subject courseNumber with
            | .error e => (.error e, st)
            | .ok _ =>
                let st0 : SysState V W U :=
                  { st with trace := st.trace ++ [Event.txnStart] }
                match createRatingTxnBody userId cd year semester subject
                    courseNumber classNumber m value st0 with
                | (.error e, s') => (.error e, { s' with db := st.db })
                | (.ok _, s') =>
                    (.ok true, invalidateRatingsCaches cd.courseId
                      { s' with trace := s'.trace ++ [Event.txnCommit] })

/-- The required-metric coverage check of `createRatings`. -/
def missingRequiredMetrics (required : List MetricName)
    (metrics : List (MetricName × Int)) : List MetricName :=
  required.filter (fun rm => !(metrics.any (fun p => decide (p.1 = rm))))

/-- The value-constraint loop of `createRatings`. -/
def checkAllValueConstraints : List (MetricName × Int) → Except Err Unit
  | [] => .ok ()
  | (m, v) :: rest =>
      match checkValueConstraint m v with
      | .error e => .error e
      | .ok _ => checkAllValueConstraints rest

/-- The delete loop shared by `createRatings` and `deleteRatings`: delete each
listed rating by `_id` and decrement its counter. -/
def deleteRatingsLoop : List Rating → DB → Except Err DB
  | [], db => .ok db
  | r :: rest, db =>
      let db1 : DB :=
        { db with ratings :=
            db.ratings.filter (fun x => !(decide (x.id = r.id))) }
      match handleCategoryCountChange r.classId r.courseId r.year r.semester
          r.subject r.courseNumber r.classNumber r.metricName r.value false
          db1.aggs with
      | .error e => .error e
      | .ok aggs' => deleteRatingsLoop rest { db1 with aggs := aggs' }

/-- The create loop of `createRatings`: one Rating plus counter increment per
submitted metric. -/
def createMetricsLoop (userId : String) (cd : ClassDoc) (year : Int)
    (semester subject courseNumber classNumber : String) :
    List (MetricName × Int) → DB → Except Err DB
  | [], db => .ok db
  | (m, v) :: rest, db =>
      match createNewRating userId
          ⟨cd.classId, cd.courseId, year, semester, subject, courseNumber,
            classNumber, m, v⟩ db with
      | .error e => .error e
      | .ok db' =>
          createMetricsLoop userId cd year semester subject courseNumber
            classNumber rest db'

/-- `createRatings` (batch submission): validation, then one transaction that
deletes every prior rating of the user for the courseId and recreates the full
submitted set; cache invalidation for the courseId after commit. -/
def createRatings (userId : String) (env : Env) (year : Int)
    (semester subject courseNumber classNumber : String)
    (metrics : List (MetricName × Int)) (st : SysState V W U) :
    Except Err Bool × SysState V W U :=
  if userId = "" then (.error unauthorizedErr, st)
  else if !(missingRequiredMetrics env.requiredMetrics metrics).isEmpty then
    (.error ⟨"Missing required metrics", ErrCode.BAD_USER_INPUT⟩, st)
  else
    match checkAllValueConstraints metrics with
    | .error e => (.error e, st)
    | .ok _ =>
        match getClassDocument env year semester subject courseNumber
            classNumber with
        | .error e => (.error e, st)
        | .ok cd =>
            match checkUserMaxRatingsConstraint env.maxRatingsPerUser
                (getUserRatingsList userId st.db) subject courseNumber with
            | .error e => (.error e, st)
            | .ok _ =>
                let existing := st.db.ratings.filter (fun r =>
                  decide (r.createdBy = userId ∧ r.courseId = cd.courseId))
                let st0 : SysState V W U :=
                  { st with trace := st.trace ++ [Event.txnStart] }
                match deleteRatingsLoop existing st0.db with
                | .error e => (.error e, { st0 with db := st.db })
                | .ok db1 =>
                    match createMetricsLoop userId cd year semester subject
                        courseNumber classNumber metrics db1 with
                    | .error e => (.error e, { st0 with db := st.db })
                    | .ok db2 =>
                        (.ok true, invalidateRatingsCaches cd.courseId
                          { st0 with
                            db := db2
                            trace := st0.trace ++ [Event.txnCommit] })

/-- `deleteRatings` (remove all ratings of the user for a course): when no
matching rating exists, returns true without starting a transaction; otherwise
one transaction deletes them all and decrements each counter, and the caches
of every affected courseId are invalidated after commit. -/
def deleteRatings (userId subject courseNumber : String)
    (st : SysState V W U) : Except Err Bool × SysState V W U :=
  if userId = "" then (.error unauthorizedErr, st)
  else
    let existing := st.db.ratings.filter (fun r =>
      decide (r.createdBy = userId ∧ r.subject = subject ∧
        r.courseNumber = courseNumber))
    let affectedCourseIds :=
      ((existing.map (fun r => r.courseId)).filter
        (fun c => !(decide (c = "")))).dedup
    if existing.isEmpty then (.ok true, st)
    else
      let st0 : SysState V W U :=
        { st with trace := st.trace ++ [Event.txnStart] }
      match deleteRatingsLoop existing st0.db with
      | .error e => (.error e, { st0 with db := st.db })
      | .ok db' =>
          (.ok true, affectedCourseIds.foldl
            (fun s cid => invalidateRatingsCaches cid s)
            { st0 with db := db', trace := st0.trace ++ [Event.txnCommit] })

end MutationOps

/-- Within the event trace of one mutation run: true when no cache invalidation
occurs before the transaction commit. -/
def invalidatesOnlyAfterCommit : List Event → Bool
  | [] => true
  | Event.txnCommit :: _ => true
  | Event.cacheInvalidate _ :: _ => false
  | Event.txnStart :: rest => invalidatesOnlyAfterCommit rest

/-- Concrete fixtures: a course "CS 61A" (courseId "c1") with a Spring 2024
offering (classId 1) and a Fall 2024 offering (classId 2). -/
def exClassSpring : ClassDoc := ⟨1, "c1", "CS", "61A", "001", "Spring", 2024⟩

def exClassFall : ClassDoc := ⟨2, "c1", "CS", "61A", "001", "Fall", 2024⟩

def exEnv : Env := ⟨[exClassSpring, exClassFall], 10, [MetricName.Usefulness]⟩

/-- Fixture: user "u" rated Usefulness 3 in the Spring 2024 offering. -/
def exRating : Rating :=
  ⟨0, "u", 1, "c1", "CS", "61A", "001", "Spring", 2024, MetricName.Usefulness, 3⟩

def exAggRow : AggRow :=
  mkAggRow 1 "c1" "CS" "61A" "Spring" 2024 "001" MetricName.Usefulness 3 1

/-- Fixture state: the rating and counter row above, one entry in each cache
for courseId "c1", an empty trace. -/
def exState : SysState Nat Nat Nat :=
  ⟨⟨[exRating], [exAggRow], 1⟩, [("c1:all", ⟨42, 100⟩)], [("c1", ⟨7, 100⟩)],
    [("c1", ⟨8, 100⟩)], []⟩

/-! ### Helper lemmas about the embedded operations -/

theorem find?_first_of_stronger {α : Type} (p q : α → Bool) (l : List α)
    (a : α) (himp : ∀ x, q x = true → p x = true)
    (hfind : l.find? p = some a) (hq : q a = true) : l.find? q = some a := by
  induction l with
  | nil => simp [List.find?] at hfind
  | cons x t ih =>
    by_cases hp : p x = true
    · rw [List.find?_cons_of_pos t hp] at hfind
      obtain rfl := Option.some.inj hfind
      exact List.find?_cons_of_pos t hq
    · have hqx : ¬ q x = true := fun h => hp (himp x h)
      rw [List.find?_cons_of_neg t hp] at hfind
      rw [List.find?_cons_of_neg t hqx]
      exact ih hfind

theorem aggKey_eq_true (cid : Nat) (m : MetricName) (cv : Int) (a : AggRow) :
    aggKey cid m cv a = true ↔
      (a.classId = cid ∧ a.metricName = m ∧ a.categoryValue = cv) := by
  simp [aggKey]

theorem findAgg_setFirstAggCount_self (cid : Nat) (m : MetricName)
    (cv n : Int) (l : List AggRow) (row : AggRow)
    (h : findAgg cid m cv l = some row) :
    findAgg cid m cv (setFirstAggCount cid m cv n l) =
      some { row with categoryCount := n } := by
  induction l with
  | nil => simp [findAgg, List.find?] at h
  | cons a t ih =>
    by_cases ha : a.classId = cid ∧ a.metricName = m ∧ a.categoryValue = cv
    · simp only [setFirstAggCount]
      rw [if_pos ha]
      have hkey : aggKey cid m cv a = true := (aggKey_eq_true cid m cv a).mpr ha
      rw [findAgg, List.find?_cons_of_pos t hkey] at h
      obtain rfl := Option.some.inj h
      rw [findAgg]
      apply List.find?_cons_of_pos
      exact (aggKey_eq_true cid m cv _).mpr ⟨ha.1, ha.2.1, ha.2.2⟩
    · simp only [setFirstAggCount]
      rw [if_neg ha]
      have hkey : ¬ aggKey cid m cv a = true := by
        rw [aggKey_eq_true]; exact ha
      rw [findAgg, List.find?_cons_of_neg t hkey] at h
      rw [findAgg, List.find?_cons_of_neg _ hkey]
      exact ih h

theorem findAgg_setFirstAggCount_other (cid cid' : Nat) (m m' : MetricName)
    (cv cv' n : Int) (l : List AggRow)
    (hne : ¬ (cid' = cid ∧ m' = m ∧ cv' = cv)) :
    findAgg cid' m' cv' (setFirstAggCount cid m cv n l) =
      findAgg cid' m' cv' l := by
  induction l with
  | nil => rfl
  | cons a t ih =>
    by_cases ha : a.classId = cid ∧ a.metricName = m ∧ a.categoryValue = cv
    · simp only [setFirstAggCount]
      rw [if_pos ha]
      have hak : ¬ aggKey cid' m' cv' a = true := by
        rw [aggKey_eq_true]
        intro hk
        exact hne ⟨hk.1 ▸ ha.1, hk.2.1 ▸ ha.2.1, hk.2.2 ▸ ha.2.2⟩
      have hmk : ¬ aggKey cid' m' cv' { a with categoryCount := n } = true := by
        rw [aggKey_eq_true]
        intro hk
        exact hne ⟨hk.1 ▸ ha.1, hk.2.1 ▸ ha.2.1, hk.2.2 ▸ ha.2.2⟩
      rw [findAgg, List.find?_cons_of_neg t hmk, findAgg,
        List.find?_cons_of_neg t hak]
    · simp only [setFirstAggCount]
      rw [if_neg ha]
      by_cases hak : aggKey cid' m' cv' a = true
      · rw [findAgg, List.find?_cons_of_pos _ hak, findAgg,
          List.find?_cons_of_pos t hak]
      · rw [findAgg, List.find?_cons_of_neg _ hak, findAgg,
          List.find?_cons_of_neg t hak]
        exact ih

theorem lookupCount_setFirstAggCount_self (cid : Nat) (m : MetricName)
    (cv n : Int) (l : List AggRow) (row : AggRow)
    (h : findAgg cid m cv l = some row) :
    lookupCount (setFirstAggCount cid m cv n l) cid m cv = n := by
  unfold lookupCount
  rw [findAgg_setFirstAggCount_self cid m cv n l row h]

theorem lookupCount_setFirstAggCount_other (cid cid' : Nat) (m m' : MetricName)
    (cv cv' n : Int) (l : List AggRow)
    (hne : ¬ (cid' = cid ∧ m' = m ∧ cv' = cv)) :
    lookupCount (setFirstAggCount cid m cv n l) cid' m' cv' =
      lookupCount l cid' m' cv' := by
  unfold lookupCount
  rw [findAgg_setFirstAggCount_other cid cid' m m' cv cv' n l hne]

theorem findAgg_nil (cid : Nat) (m : MetricName) (cv : Int) :
    findAgg cid m cv [] = none := rfl

theorem findAgg_seed_self (cid : Nat)
    (courseId subject courseNumber semester : String) (year : Int)
    (classNumber : String) (m : MetricName) (cv : Int) (range : List Int)
    (hmem : cv ∈ range) :
    findAgg cid m cv (range.map (fun v =>
        mkAggRow cid courseId subject courseNumber semester year classNumber
          m v (if v = cv then 1 else 0))) =
      some (mkAggRow cid courseId subject courseNumber semester year
        classNumber m cv 1) := by
  induction range with
  | nil => cases hmem
  | cons v t ih =>
    simp only [List.map_cons]
    by_cases hv : v = cv
    · subst hv
      rw [findAgg]
      rw [List.find?_cons_of_pos]
      · rw [if_pos rfl]
      · exact (aggKey_eq_true cid m v _).mpr ⟨rfl, rfl, rfl⟩
    · rw [findAgg, List.find?_cons_of_neg]
      · exact ih (by
          rcases List.mem_cons.mp hmem with h | h
          · exact absurd h.symm hv
          · exact h)
      · rw [aggKey_eq_true]
        intro hk
        exact hv hk.2.2
  
theorem lookupCount_seed_other (cid cid' : Nat)
    (courseId subject courseNumber semester : String) (year : Int)
    (classNumber : String) (m m' : MetricName) (cv cv' : Int)
    (range : List Int) (hne : ¬ (cid' = cid ∧ m' = m ∧ cv' = cv)) :
    lookupCount (range.map (fun v =>
        mkAggRow cid courseId subject courseNumber semester year classNumber
          m v (if v = cv then 1 else 0))) cid' m' cv' = 0 := by
  induction range with
  | nil => rfl
  | cons v t ih =>
    simp only [List.map_cons]
    by_cases hk : aggKey cid' m' cv'
        (mkAggRow cid courseId subject courseNumber semester year classNumber
          m v (if v = cv then 1 else 0)) = true
    · unfold lookupCount findAgg
      rw [List.find?_cons_of_pos _ hk]
      rw [aggKey_eq_true] at hk
      obtain ⟨h1, h2, h3⟩ := hk
      simp only [mkAggRow] at h1 h2 h3
      have hvcv : ¬ v = cv := by
        intro hvc
        exact hne ⟨h1.symm, h2.symm, by omega⟩
      simp [mkAggRow, hvcv]
    · unfold lookupCount findAgg at ih ⊢
      rw [List.find?_cons_of_neg _ hk]
      exact ih

theorem lookupCount_append_left (cid : Nat) (m : MetricName) (cv : Int)
    (l1 l2 : List AggRow) (row : AggRow) (h : findAgg cid m cv l1 = some row) :
    lookupCount (l1 ++ l2) cid m cv = lookupCount l1 cid m cv := by
  unfold lookupCount findAgg
  rw [List.find?_append]
  unfold findAgg at h
  rw [h]
  rfl

theorem lookupCount_append_right (cid : Nat) (m : MetricName) (cv : Int)
    (l1 l2 : List AggRow) (h : findAgg cid m cv l1 = none) :
    lookupCount (l1 ++ l2) cid m cv = lookupCount l2 cid m cv := by
  unfold lookupCount findAgg
  rw [List.find?_append]
  unfold findAgg at h
  rw [h]
  rfl

theorem metricValueRange_eq (m : MetricName) :
    metricValueRange m =
      some (if metricIsRating m then [1, 2, 3, 4, 5] else [0, 1]) := by
  cases m <;> rfl

theorem checkValueConstraint_mem_range (m : MetricName) (v : Int)
    (h : checkValueConstraint m v = .ok ()) :
    ∃ range, metricValueRange m = some range ∧ v ∈ range := by
  refine ⟨if metricIsRating m then [1, 2, 3, 4, 5] else [0, 1],
    metricValueRange_eq m, ?_⟩
  unfold checkValueConstraint at h
  by_cases hm : metricIsRating m
  · rw [if_pos hm] at h ⊢
    by_cases hv : 1 ≤ v ∧ v ≤ 5
    · simp only [List.mem_cons, List.not_mem_nil, or_false]
      omega
    · rw [if_neg hv] at h
      exact absurd h (by simp)
  · rw [if_neg hm] at h ⊢
    by_cases hv : v = 0 ∨ v = 1
    · simp only [List.mem_cons, List.not_mem_nil, or_false]
      omega
    · rw [if_neg hv] at h
      exact absurd h (by simp)

theorem handleCategoryCountChange_dec_eq (classId : Nat) (courseId : String)
    (year : Int) (semester subject courseNumber classNumber : String)
    (m : MetricName) (cv : Int) (aggs : List AggRow) (row : AggRow)
    (hfind : findAgg classId m cv aggs = some row)
    (hpos : 1 ≤ row.categoryCount) :
    handleCategoryCountChange classId courseId year semester subject
        courseNumber classNumber m cv false aggs =
      .ok (setFirstAggCount classId m cv (row.categoryCount + -1) aggs) := by
  unfold handleCategoryCountChange
  rw [hfind]
  simp only [Bool.false_eq_true, if_false]
  rw [if_neg (by omega)]

theorem handleCategoryCountChange_inc_eq_existing (classId : Nat)
    (courseId : String) (year : Int)
    (semester subject courseNumber classNumber : String) (m : MetricName)
    (cv : Int) (aggs : List AggRow) (row : AggRow)
    (hfind : findAgg classId m cv aggs = some row)
    (hnn : 0 ≤ row.categoryCount) :
    handleCategoryCountChange classId courseId year semester subject
        courseNumber classNumber m cv true aggs =
      .ok (setFirstAggCount classId m cv (row.categoryCount + 1) aggs) := by
  unfold handleCategoryCountChange
  rw [hfind]
  simp only [if_true]
  rw [if_neg (by omega)]

theorem handleCategoryCountChange_inc_eq_missing (classId : Nat)
    (courseId : String) (year : Int)
    (semester subject courseNumber classNumber : String) (m : MetricName)
    (cv : Int) (aggs : List AggRow) (range : List Int)
    (hfind : findAgg classId m cv aggs = none)
    (hrange : metricValueRange m = some range) :
    handleCategoryCountChange classId courseId year semester subject
        courseNumber classNumber m cv true aggs =
      .ok (aggs ++ range.map (fun v =>
        mkAggRow classId courseId subject courseNumber semester year
          classNumber m v (if v = cv then 1 else 0))) := by
  unfold handleCategoryCountChange
  rw [hfind, hrange]
  rfl

/-! ### Claim theorems -/

/-- C2: for a counter key `(classId, metricName, categoryValue)` with no
existing row, an increment materializes, in the single call, one row for every
category value of the metric's domain — `[1,2,3,4,5]` for rating-scale
metrics, `[0,1]` for boolean metrics — with the target categoryValue's count
set to 1 and every other created count set to 0. -/
theorem claim_C2_seed_on_first_increment (classId : Nat) (courseId : String)
    (year : Int) (semester subject courseNumber classNumber : String)
    (m : MetricName) (cv : Int) (aggs : List AggRow) (range : List Int)
    (hfind : findAgg classId m cv aggs = none)
    (hrange : metricValueRange m = some range) (hmem : cv ∈ range) :
    handleCategoryCountChange classId courseId year semester subject
        courseNumber classNumber m cv true aggs =
      .ok (aggs ++ range.map (fun v =>
        mkAggRow classId courseId subject courseNumber semester year
          classNumber m v (if v = cv then 1 else 0))) ∧
    lookupCount (aggs ++ range.map (fun v =>
        mkAggRow classId courseId subject courseNumber semester year
          classNumber m v (if v = cv then 1 else 0))) classId m cv = 1 ∧
    (metricIsRating m = true → range = [1, 2, 3, 4, 5]) ∧
    (metricIsRating m = false → range = [0, 1]) := by
  have hrngval : range = if metricIsRating m then [1, 2, 3, 4, 5] else [0, 1] := by
    have := metricValueRange_eq m
    rw [hrange] at this
    exact Option.some.inj this
  refine ⟨handleCategoryCountChange_inc_eq_missing classId courseId year
    semester subject courseNumber classNumber m cv aggs range hfind hrange,
    ?_, ?_, ?_⟩
  · rw [lookupCount_append_right classId m cv aggs _ hfind]
    unfold lookupCount
    rw [findAgg_seed_self classId courseId subject courseNumber semester year
      classNumber m cv range hmem]
    rfl
  · intro hm
    rw [hrngval, if_pos hm]
  · intro hm
    rw [hrngval, if_neg (by rw [hm]; exact Bool.false_ne_true)]

/-- C2 witness: first increment for `(classId 2, Attendance, 1)` on an empty
counter store seeds both boolean rows, the target at 1, the other at 0. -/
theorem claim_C2_seed_on_first_increment_witness :
    handleCategoryCountChange 2 "c1" 2024 "Fall" "CS" "61A" "001"
        MetricName.Attendance 1 true [] =
      .ok ([] ++ [(0 : Int), 1].map (fun v =>
        mkAggRow 2 "c1" "CS" "61A" "Fall" 2024 "001" MetricName.Attendance v
          (if v = 1 then 1 else 0))) ∧
    lookupCount ([] ++ [(0 : Int), 1].map (fun v =>
        mkAggRow 2 "c1" "CS" "61A" "Fall" 2024 "001" MetricName.Attendance v
          (if v = 1 then 1 else 0))) 2 MetricName.Attendance 1 = 1 ∧
    (metricIsRating MetricName.Attendance = true → [(0 : Int), 1] = [1, 2, 3, 4, 5]) ∧
    (metricIsRating MetricName.Attendance = false → [(0 : Int), 1] = [0, 1]) :=
  claim_C2_seed_on_first_increment 2 "c1" 2024 "Fall" "CS" "61A" "001"
    MetricName.Attendance 1 [] [0, 1] rfl rfl (by decide)

theorem setFirstAggCount_nonneg (cid : Nat) (m : MetricName) (cv n : Int)
    (hn : 0 ≤ n) : ∀ (l : List AggRow), (∀ a ∈ l, 0 ≤ a.categoryCount) →
      ∀ a ∈ setFirstAggCount cid m cv n l, 0 ≤ a.categoryCount := by
  intro l
  induction l with
  | nil => intro _ a ha; cases ha
  | cons b rest ih =>
    intro hl a ha
    simp only [setFirstAggCount] at ha
    by_cases hb : b.classId = cid ∧ b.metricName = m ∧ b.categoryValue = cv
    · rw [if_pos hb] at ha
      rcases List.mem_cons.mp ha with h | h
      · subst h; exact hn
      · exact hl a (List.mem_cons_of_mem b h)
    · rw [if_neg hb] at ha
      rcases List.mem_cons.mp ha with h | h
      · rw [h]; exact hl b (List.mem_cons_self b rest)
      · exact ih (fun c hc => hl c (List.mem_cons_of_mem b hc)) a h

theorem handleCategoryCountChange_existing_eq (classId : Nat)
    (courseId : String) (year : Int)
    (semester subject courseNumber classNumber : String) (m : MetricName)
    (cv : Int) (isIncrement : Bool) (aggs : List AggRow) (row : AggRow)
    (hfind : findAgg classId m cv aggs = some row) :
    handleCategoryCountChange classId courseId year semester subject
        courseNumber classNumber m cv isIncrement aggs =
      (if row.categoryCount + (if isIncrement then 1 else -1) < 0 then
        .error ⟨"categoryCount must be non-negative",
          ErrCode.INVARIANT_VIOLATION⟩
      else
        .ok (setFirstAggCount classId m cv
          (row.categoryCount + (if isIncrement then 1 else -1)) aggs)) := by
  unfold handleCategoryCountChange
  rw [hfind]

theorem handleCategoryCountChange_dec_missing_eq (classId : Nat)
    (courseId : String) (year : Int)
    (semester subject courseNumber classNumber : String) (m : MetricName)
    (cv : Int) (aggs : List AggRow)
    (hfind : findAgg classId m cv aggs = none) :
    handleCategoryCountChange classId courseId year semester subject
        courseNumber classNumber m cv false aggs =
      .error ⟨"Aggregated Rating does not exist, cannot decrement",
        ErrCode.NOT_FOUND⟩ := by
  unfold handleCategoryCountChange
  rw [hfind]
  rfl

/-- C3: counter adjustments keep every `AggregatedMetric` row's categoryCount
non-negative.  An adjustment on an existing row whose result would be negative
fails with the `InvariantViolation` kind instead of storing the negative
count, and any adjustment that succeeds on a store of non-negative counts
yields a store of non-negative counts. -/
theorem claim_C3_nonnegative_counts :
    (∀ (classId : Nat) (courseId : String) (year : Int)
      (semester subject courseNumber classNumber : String) (m : MetricName)
      (cv : Int) (isIncrement : Bool) (aggs : List AggRow) (row : AggRow),
      findAgg classId m cv aggs = some row →
      row.categoryCount + (if isIncrement then 1 else -1) < 0 →
      handleCategoryCountChange classId courseId year semester subject
          courseNumber classNumber m cv isIncrement aggs =
        .error ⟨"categoryCount must be non-negative",
          ErrCode.INVARIANT_VIOLATION⟩) ∧
    (∀ (classId : Nat) (courseId : String) (year : Int)
      (semester subject courseNumber classNumber : String) (m : MetricName)
      (cv : Int) (isIncrement : Bool) (aggs aggs' : List AggRow),
      (∀ a ∈ aggs, 0 ≤ a.categoryCount) →
      handleCategoryCountChange classId courseId year semester subject
          courseNumber classNumber m cv isIncrement aggs = .ok aggs' →
      ∀ a ∈ aggs', 0 ≤ a.categoryCount) := by
  constructor
  · intro classId courseId year semester subject courseNumber classNumber m cv
      isIncrement aggs row hfind hneg
    rw [handleCategoryCountChange_existing_eq classId courseId year semester
      subject courseNumber classNumber m cv isIncrement aggs row hfind]
    rw [if_pos hneg]
  · intro classId courseId year semester subject courseNumber classNumber m cv
      isIncrement aggs aggs' hl hok
    cases hfind : findAgg classId m cv aggs with
    | some row =>
        rw [handleCategoryCountChange_existing_eq classId courseId year
          semester subject courseNumber classNumber m cv isIncrement aggs row
          hfind] at hok
        by_cases hneg :
            row.categoryCount + (if isIncrement then 1 else -1) < 0
        · rw [if_pos hneg] at hok
          exact absurd hok (by simp)
        · rw [if_neg hneg] at hok
          have hset := Except.ok.inj hok
          subst hset
          exact setFirstAggCount_nonneg classId m cv _ (Int.not_lt.mp hneg)
            aggs hl
    | none =>
        cases isIncrement
        · rw [handleCategoryCountChange_dec_missing_eq classId courseId year
            semester subject courseNumber classNumber m cv aggs hfind] at hok
          exact absurd hok (by simp)
        · rw [handleCategoryCountChange_inc_eq_missing classId courseId year
            semester subject courseNumber classNumber m cv aggs _ hfind
            (metricValueRange_eq m)] at hok
          have happ := Except.ok.inj hok
          subst happ
          intro a ha
          rcases List.mem_append.mp ha with h | h
          · exact hl a h
          · obtain ⟨v, hv, rfl⟩ := List.mem_map.mp h
            simp only [mkAggRow]
            split <;> omega

/-- C4 counterexample: on an empty counter store, a decrement fails with the
code `NOT_FOUND` — not the `INVARIANT_VIOLATION` kind the claim names. -/
theorem claim_C4_counterexample :
    handleCategoryCountChange 1 "c1" 2024 "Spring" "CS" "61A" "001"
        MetricName.Usefulness 3 false [] =
      .error ⟨"Aggregated Rating does not exist, cannot decrement",
        ErrCode.NOT_FOUND⟩ ∧
    ErrCode.NOT_FOUND ≠ ErrCode.INVARIANT_VIOLATION :=
  ⟨rfl, by decide⟩

/-- C4 (amended): for every counter key with no existing row, a decrement
fails — with a `NOT_FOUND`-coded error ("Aggregated Rating does not exist,
cannot decrement") — and, the operation failing, creates no rows. -/
theorem claim_C4_decrement_missing (classId : Nat) (courseId : String)
    (year : Int) (semester subject courseNumber classNumber : String)
    (m : MetricName) (cv : Int) (aggs : List AggRow)
    (hfind : findAgg classId m cv aggs = none) :
    handleCategoryCountChange classId courseId year semester subject
        courseNumber classNumber m cv false aggs =
      .error ⟨"Aggregated Rating does not exist, cannot decrement",
        ErrCode.NOT_FOUND⟩ :=
  handleCategoryCountChange_dec_missing_eq classId courseId year semester
    subject courseNumber classNumber m cv aggs hfind

/-- C4 witness: the amended statement at the empty counter store. -/
theorem claim_C4_decrement_missing_witness :
    handleCategoryCountChange 1 "c1" 2024 "Spring" "CS" "61A" "001"
        MetricName.Usefulness 3 false [] =
      .error ⟨"Aggregated Rating does not exist, cannot decrement",
        ErrCode.NOT_FOUND⟩ :=
  claim_C4_decrement_missing 1 "c1" 2024 "Spring" "CS" "61A" "001"
    MetricName.Usefulness 3 [] rfl

/-- C6 counterexample: at `now = expiresAt` the read returns the cached value
even though `now < expiresAt` fails — the code misses only when
`now > expiresAt` — so "exactly when now < expiresAt" is wrong at the
boundary.  The recomputed value would have been 7, and the returned value is
the cached 42 with the cache left unchanged. -/
theorem claim_C6_counterexample :
    ¬ ((0 : Int) < 0) ∧
    getCourseAggregatedRatings (0 : Int) (some "c") (fun _ => (7 : Nat)) 0
        none [("c:all", ⟨42, 0⟩)] = (42, [("c:all", ⟨42, 0⟩)]) ∧
    (7 : Nat) ≠ 42 :=
  ⟨by decide, by decide, by decide⟩

/-- C6 (amended): a cached course-aggregate read at time `now` returns the
cached value exactly when `now ≤ expiresAt`; when `expiresAt < now` it treats
the entry as a miss, deletes the stale entry, recomputes via the aggregator
and stores the fresh result under the same key with `expiresAt = now + TTL`. -/
theorem claim_C6_cache_read (V : Type) (now : Int) (cache : Cache V)
    (cid key : String) (metricNames : Option (List String))
    (recompute : String → V) (emptyResult : V) (e : CacheEntry V)
    (hkey : key = cid ++ ":" ++ getMetricNamesKey metricNames)
    (hfind : cache.find? (fun p => decide (p.1 = key)) = some (key, e)) :
    (now ≤ e.expiresAt →
      getCourseAggregatedRatings now (some cid) recompute emptyResult
        metricNames cache = (e.value, cache)) ∧
    (e.expiresAt < now →
      getCourseAggregatedRatings now (some cid) recompute emptyResult
        metricNames cache =
        (recompute cid,
          setCachedValue now
            (cache.filter (fun p => !(decide (p.1 = key)))) key
            (recompute cid) COURSE_AGGREGATED_RATINGS_TTL_MS) ∧
      (setCachedValue now (cache.filter (fun p => !(decide (p.1 = key)))) key
          (recompute cid) COURSE_AGGREGATED_RATINGS_TTL_MS).find?
          (fun p => decide (p.1 = key)) =
        some (key, ⟨recompute cid, now + COURSE_AGGREGATED_RATINGS_TTL_MS⟩)) := by
  subst hkey
  constructor
  · intro h
    simp only [getCourseAggregatedRatings, getCachedValue, hfind]
    rw [if_neg (Int.not_lt.mpr h)]
  · intro h
    constructor
    · simp only [getCourseAggregatedRatings, getCachedValue, hfind]
      rw [if_pos h]
    · unfold setCachedValue
      apply List.find?_cons_of_pos
      simp

/-- C6 witness: the amended statement at a concrete cache entry
(`expiresAt = 100`, read at `now = 200`). -/
theorem claim_C6_cache_read_witness :
    ((200 : Int) ≤ (100 : Int) →
      getCourseAggregatedRatings 200 (some "c") (fun _ => (7 : Nat)) 0 none
        [("c:all", ⟨42, 100⟩)] = (42, [("c:all", ⟨42, 100⟩)])) ∧
    ((100 : Int) < 200 →
      getCourseAggregatedRatings 200 (some "c") (fun _ => (7 : Nat)) 0 none
        [("c:all", ⟨42, 100⟩)] =
        (7, setCachedValue 200 ([] : Cache Nat) "c:all" 7
          COURSE_AGGREGATED_RATINGS_TTL_MS) ∧
      (setCachedValue 200 ([] : Cache Nat) "c:all" 7
          COURSE_AGGREGATED_RATINGS_TTL_MS).find?
          (fun p => decide (p.1 = "c:all")) =
        some ("c:all", ⟨7, 200 + COURSE_AGGREGATED_RATINGS_TTL_MS⟩)) :=
  claim_C6_cache_read Nat 200 [("c:all", ⟨42, 100⟩)] "c" "c:all" none
    (fun _ => 7) 0 ⟨42, 100⟩ (by decide) (by decide)

/-- C7: after `invalidateRatingsCaches courseId`, no course-aggregate entry
whose key starts with the `courseId + ":"` prefix remains, no
semesters-with-ratings or instructor-aggregate entry keyed by `courseId`
remains, and every cache entry of any other key is preserved unchanged. -/
theorem claim_C7_invalidation_effect {V W U : Type} (courseId : String)
    (st : SysState V W U) :
    (∀ p ∈ (invalidateRatingsCaches courseId st).courseCache,
      ((courseId ++ ":").isPrefixOf p.1) = false) ∧
    (∀ p ∈ (invalidateRatingsCaches courseId st).semCache, p.1 ≠ courseId) ∧
    (∀ p ∈ (invalidateRatingsCaches courseId st).instrCache,
      p.1 ≠ courseId) ∧
    (∀ p ∈ st.courseCache, ((courseId ++ ":").isPrefixOf p.1) = false →
      p ∈ (invalidateRatingsCaches courseId st).courseCache) ∧
    (∀ p ∈ st.semCache, p.1 ≠ courseId →
      p ∈ (invalidateRatingsCaches courseId st).semCache) ∧
    (∀ p ∈ st.instrCache, p.1 ≠ courseId →
      p ∈ (invalidateRatingsCaches courseId st).instrCache) := by
  unfold invalidateRatingsCaches
  refine ⟨?_, ?_, ?_, ?_, ?_, ?_⟩
  · intro p hp
    have := (List.mem_filter.mp hp).2
    simpa using this
  · intro p hp
    have := (List.mem_filter.mp hp).2
    simpa using this
  · intro p hp
    have := (List.mem_filter.mp hp).2
    simpa using this
  · intro p hp hcond
    exact List.mem_filter.mpr ⟨hp, by simp [hcond]⟩
  · intro p hp hcond
    exact List.mem_filter.mpr ⟨hp, by simp [hcond]⟩
  · intro p hp hcond
    exact List.mem_filter.mpr ⟨hp, by simp [hcond]⟩

/-- C9: every mutating operation invoked without an authenticated identity
(an empty user id) fails with the `UNAUTHENTICATED`-coded "Unauthorized"
error and leaves the whole state — ratings, counters, caches, trace —
unchanged. -/
theorem claim_C9_unauthenticated {V W U : Type} (env : Env) (year : Int)
    (semester subject courseNumber classNumber : String) (m : MetricName)
    (value : Int) (metrics : List (MetricName × Int)) (nested : Bool)
    (st : SysState V W U) :
    createRating "" env year semester subject courseNumber classNumber m
        value st = (.error unauthorizedErr, st) ∧
    createRatings "" env year semester subject courseNumber classNumber
        metrics st = (.error unauthorizedErr, st) ∧
    deleteRating nested "" year semester subject courseNumber classNumber m
        st = (.error unauthorizedErr, st) ∧
    deleteRatings "" subject courseNumber st = (.error unauthorizedErr, st) ∧
    unauthorizedErr.code = ErrCode.UNAUTHENTICATED :=
  ⟨rfl, rfl, rfl, rfl, rfl⟩

/-- C10: `deleteRatings` for an authenticated user with no rating matching
`(subject, courseNumber)` returns true and leaves the whole state unchanged:
no transaction is started (no trace event), nothing is deleted, no
`NOT_FOUND` error is raised. -/
theorem claim_C10_delete_all_ratings_empty {V W U : Type}
    (userId subject courseNumber : String) (st : SysState V W U)
    (hu : ¬ userId = "")
    (hnone : st.db.ratings.filter (fun r => decide (r.createdBy = userId ∧
      r.subject = subject ∧ r.courseNumber = courseNumber)) = []) :
    deleteRatings userId subject courseNumber st = (.ok true, st) := by
  unfold deleteRatings
  rw [if_neg hu]
  simp only [hnone, List.isEmpty_nil, if_true]

/-- C10 witness: deleting all "MATH 1A" ratings of user "u", who has none, in
the fixture state. -/
theorem claim_C10_delete_all_ratings_empty_witness :
    deleteRatings "u" "MATH" "1A" exState = (.ok true, exState) :=
  claim_C10_delete_all_ratings_empty "u" "MATH" "1A" exState (by decide)
    (by decide)

theorem lookupCount_of_some (cid : Nat) (m : MetricName) (cv : Int)
    (aggs : List AggRow) (row : AggRow)
    (h : findAgg cid m cv aggs = some row) :
    lookupCount aggs cid m cv = row.categoryCount := by
  unfold lookupCount
  rw [h]

theorem lookupCount_of_none (cid : Nat) (m : MetricName) (cv : Int)
    (aggs : List AggRow) (h : findAgg cid m cv aggs = none) :
    lookupCount aggs cid m cv = 0 := by
  unfold lookupCount
  rw [h]

theorem handle_dec_run (classId : Nat) (courseId : String) (year : Int)
    (semester subject courseNumber classNumber : String) (m : MetricName)
    (cv : Int) (aggs : List AggRow) (row : AggRow)
    (hfind : findAgg classId m cv aggs = some row)
    (hpos : 1 ≤ row.categoryCount) :
    ∃ aggs1,
      handleCategoryCountChange classId courseId year semester subject
          courseNumber classNumber m cv false aggs = .ok aggs1 ∧
      lookupCount aggs1 classId m cv = lookupCount aggs classId m cv - 1 ∧
      (∀ (cid' : Nat) (m' : MetricName) (cv' : Int),
        ¬ (cid' = classId ∧ m' = m ∧ cv' = cv) →
        lookupCount aggs1 cid' m' cv' = lookupCount aggs cid' m' cv') ∧
      (∀ (cid' : Nat) (m' : MetricName) (cv' : Int),
        ¬ (cid' = classId ∧ m' = m ∧ cv' = cv) →
        findAgg cid' m' cv' aggs1 = findAgg cid' m' cv' aggs) := by
  refine ⟨setFirstAggCount classId m cv (row.categoryCount + -1) aggs,
    handleCategoryCountChange_dec_eq classId courseId year semester subject
      courseNumber classNumber m cv aggs row hfind hpos, ?_, ?_, ?_⟩
  · rw [lookupCount_setFirstAggCount_self classId m cv _ aggs row hfind,
      lookupCount_of_some classId m cv aggs row hfind]
    omega
  · intro cid' m' cv' hne
    exact lookupCount_setFirstAggCount_other classId cid' m m' cv cv' _ aggs hne
  · intro cid' m' cv' hne
    exact findAgg_setFirstAggCount_other classId cid' m m' cv cv' _ aggs hne

theorem handle_inc_run (classId : Nat) (courseId : String) (year : Int)
    (semester subject courseNumber classNumber : String) (m : MetricName)
    (cv : Int) (aggs : List AggRow)
    (hrange : ∃ range, metricValueRange m = some range ∧ cv ∈ range)
    (hnn : 0 ≤ lookupCount aggs classId m cv) :
    ∃ aggs2,
      handleCategoryCountChange classId courseId year semester subject
          courseNumber classNumber m cv true aggs = .ok aggs2 ∧
      lookupCount aggs2 classId m cv = lookupCount aggs classId m cv + 1 ∧
      (∀ (cid' : Nat) (m' : MetricName) (cv' : Int),
        ¬ (cid' = classId ∧ m' = m ∧ cv' = cv) →
        lookupCount aggs2 cid' m' cv' = lookupCount aggs cid' m' cv') := by
  obtain ⟨range, hr, hm⟩ := hrange
  cases hf : findAgg classId m cv aggs with
  | some row =>
      have hrc : 0 ≤ row.categoryCount := by
        rw [lookupCount_of_some classId m cv aggs row hf] at hnn
        exact hnn
      refine ⟨setFirstAggCount classId m cv (row.categoryCount + 1) aggs,
        handleCategoryCountChange_inc_eq_existing classId courseId year
          semester subject courseNumber classNumber m cv aggs row hf hrc,
        ?_, ?_⟩
      · rw [lookupCount_setFirstAggCount_self classId m cv _ aggs row hf,
          lookupCount_of_some classId m cv aggs row hf]
      · intro cid' m' cv' hne
        exact lookupCount_setFirstAggCount_other classId cid' m m' cv cv' _
          aggs hne
  | none =>
      refine ⟨aggs ++ range.map (fun v =>
        mkAggRow classId courseId subject courseNumber semester year
          classNumber m v (if v = cv then 1 else 0)),
        handleCategoryCountChange_inc_eq_missing classId courseId year
          semester subject courseNumber classNumber m cv aggs range hf hr,
        ?_, ?_⟩
      · rw [lookupCount_append_right classId m cv aggs _ hf,
          lookupCount_of_none classId m cv aggs hf]
        unfold lookupCount
        rw [findAgg_seed_self classId courseId subject courseNumber semester
          year classNumber m cv range hm]
        rfl
      · intro cid' m' cv' hne
        cases hf' : findAgg cid' m' cv' aggs with
        | some row' =>
            rw [lookupCount_append_left cid' m' cv' aggs _ row' hf']
        | none =>
            rw [lookupCount_append_right cid' m' cv' aggs _ hf',
              lookupCount_of_none cid' m' cv' aggs hf',
              lookupCount_seed_other classId cid' courseId subject courseNumber
                semester year classNumber m m' cv cv' range hne]

theorem checkUserMax_ok_of_exists (maxC : Nat)
    (userId subject courseNumber : String) (m : MetricName) (db : DB)
    (r : Rating) (hex : checkRatingExists userId subject courseNumber m db =
      some r) :
    checkUserMaxRatingsConstraint maxC (getUserRatingsList userId db) subject
      courseNumber = .ok () := by
  have hmem := List.mem_of_find?_eq_some hex
  have hpred := List.find?_some hex
  simp only [decide_eq_true_eq] at hpred
  obtain ⟨h1, h2, h3, h4⟩ := hpred
  have hcond : (getUserRatingsList userId db).any (fun r =>
      decide (r.subject = subject ∧ r.courseNumber = courseNumber)) = true := by
    refine List.any_eq_true.mpr ⟨r, ?_, by simp [h2, h3]⟩
    unfold getUserRatingsList
    exact List.mem_filter.mpr ⟨hmem, by simp [h1]⟩
  unfold checkUserMaxRatingsConstraint
  rw [if_pos hcond]

theorem createRating_checks_eq {V W U : Type} (userId : String) (env : Env)
    (year : Int) (semester subject courseNumber classNumber : String)
    (m : MetricName) (value : Int) (st : SysState V W U) (cd : ClassDoc)
    (hu : ¬ userId = "")
    (hval : checkValueConstraint m value = .ok ())
    (hcd : getClassDocument env year semester subject courseNumber
      classNumber = .ok cd)
    (hmax : checkUserMaxRatingsConstraint env.maxRatingsPerUser
      (getUserRatingsList userId st.db) subject courseNumber = .ok ()) :
    createRating userId env year semester subject courseNumber classNumber m
        value st =
      (match createRatingTxnBody userId cd year semester subject courseNumber
          classNumber m value
          { st with trace := st.trace ++ [Event.txnStart] } with
      | (.error e, s') => (.error e, { s' with db := st.db })
      | (.ok _, s') =>
          (.ok true, invalidateRatingsCaches cd.courseId
            { s' with trace := s'.trace ++ [Event.txnCommit] })) := by
  unfold createRating
  rw [if_neg hu, hval, hcd, hmax]

theorem deleteRating_nested_run {V W U : Type} (userId : String) (year : Int)
    (semester subject courseNumber classNumber : String) (mn : MetricName)
    (s : SysState V W U) (r : Rating) (db' : DB)
    (hu : ¬ userId = "")
    (hops : deleteRatingOperations userId year semester subject courseNumber
      classNumber mn s.db = .ok (r, db')) :
    deleteRating true userId year semester subject courseNumber classNumber
        mn s = (.ok true, invalidateRatingsCaches r.courseId
          { s with db := db' }) := by
  unfold deleteRating
  rw [if_neg hu]
  simp only [hops, if_true]

theorem createNewRating_run (userId : String) (rd : RatingData) (db : DB)
    (aggs2 : List AggRow)
    (hinc : handleCategoryCountChange rd.classId rd.courseId rd.year
      rd.semester rd.subject rd.courseNumber rd.classNumber rd.metricName
      rd.value true db.aggs = .ok aggs2) :
    createNewRating userId rd db =
      .ok ⟨db.ratings ++ [⟨db.nextId, userId, rd.classId, rd.courseId,
        rd.subject, rd.courseNumber, rd.classNumber, rd.semester, rd.year,
        rd.metricName, rd.value⟩], aggs2, db.nextId + 1⟩ := by
  unfold createNewRating
  rw [hinc]

theorem createRatingTxnBody_replace_run {V W U : Type} (userId : String)
    (cd : ClassDoc) (year : Int)
    (semester subject courseNumber classNumber : String) (m : MetricName)
    (value : Int) (s : SysState V W U) (r : Rating) (aggs1 aggs2 : List AggRow)
    (hu : ¬ userId = "")
    (hex : checkRatingExists userId subject courseNumber m s.db = some r)
    (hterm : r.semester ≠ semester ∨ r.year ≠ year ∨
      r.classNumber ≠ classNumber)
    (hdelOps : deleteRatingOperations userId r.year r.semester r.subject
      r.courseNumber r.classNumber r.metricName s.db =
      .ok (r, ⟨s.db.ratings.filter (fun x => !(decide (x.id = r.id))), aggs1,
        s.db.nextId⟩))
    (hinc : handleCategoryCountChange cd.classId cd.courseId year semester
      subject courseNumber classNumber m value true aggs1 = .ok aggs2) :
    createRatingTxnBody userId cd year semester subject courseNumber
        classNumber m value s =
      (.ok (), ⟨⟨s.db.ratings.filter (fun x => !(decide (x.id = r.id))) ++
          [⟨s.db.nextId, userId, cd.classId, cd.courseId, subject,
            courseNumber, classNumber, semester, year, m, value⟩],
        aggs2, s.db.nextId + 1⟩,
        s.courseCache.filter (fun p => !((r.courseId ++ ":").isPrefixOf p.1)),
        s.semCache.filter (fun p => !(decide (p.1 = r.courseId))),
        s.instrCache.filter (fun p => !(decide (p.1 = r.courseId))),
        s.trace ++ [Event.cacheInvalidate r.courseId]⟩) := by
  unfold createRatingTxnBody
  rw [hex]
  simp only []
  rw [if_pos hterm]
  rw [deleteRating_nested_run userId r.year r.semester r.subject
    r.courseNumber r.classNumber r.metricName s r _ hu hdelOps]
  simp only [invalidateRatingsCaches]
  rw [createNewRating_run userId
    ⟨cd.classId, cd.courseId, year, semester, subject, courseNumber,
      classNumber, m, value⟩
    ⟨s.db.ratings.filter (fun x => !(decide (x.id = r.id))), aggs1,
      s.db.nextId⟩ aggs2 hinc]

theorem createRating_replace_run {V W U : Type} (userId : String) (env : Env)
    (year : Int) (semester subject courseNumber classNumber : String)
    (m : MetricName) (value : Int) (st : SysState V W U) (cd : ClassDoc)
    (r : Rating) (oldRow : AggRow)
    (hu : ¬ userId = "")
    (hval : checkValueConstraint m value = .ok ())
    (hcd : getClassDocument env year semester subject courseNumber
      classNumber = .ok cd)
    (hex : checkRatingExists userId subject courseNumber m st.db = some r)
    (hterm : r.semester ≠ semester ∨ r.year ≠ year ∨
      r.classNumber ≠ classNumber)
    (hold : findAgg r.classId r.metricName r.value st.db.aggs = some oldRow)
    (holdpos : 1 ≤ oldRow.categoryCount)
    (hcls : ¬ cd.classId = r.classId)
    (hnewnn : 0 ≤ lookupCount st.db.aggs cd.classId m value) :
    ∃ aggs2,
      createRating userId env year semester subject courseNumber classNumber
          m value st =
        (.ok true,
          ⟨⟨st.db.ratings.filter (fun x => !(decide (x.id = r.id))) ++
              [⟨st.db.nextId, userId, cd.classId, cd.courseId, subject,
                courseNumber, classNumber, semester, year, m, value⟩],
            aggs2, st.db.nextId + 1⟩,
            (st.courseCache.filter
              (fun p => !((r.courseId ++ ":").isPrefixOf p.1))).filter
              (fun p => !((cd.courseId ++ ":").isPrefixOf p.1)),
            (st.semCache.filter
              (fun p => !(decide (p.1 = r.courseId)))).filter
              (fun p => !(decide (p.1 = cd.courseId))),
            (st.instrCache.filter
              (fun p => !(decide (p.1 = r.courseId)))).filter
              (fun p => !(decide (p.1 = cd.courseId))),
            (((st.trace ++ [Event.txnStart]) ++
              [Event.cacheInvalidate r.courseId]) ++ [Event.txnCommit]) ++
              [Event.cacheInvalidate cd.courseId]⟩) ∧
      lookupCount aggs2 r.classId r.metricName r.value =
        lookupCount st.db.aggs r.classId r.metricName r.value - 1 ∧
      lookupCount aggs2 cd.classId m value =
        lookupCount st.db.aggs cd.classId m value + 1 := by
  have hpred := List.find?_some hex
  simp only [decide_eq_true_eq] at hpred
  obtain ⟨hcb, hsub, hcn, hmn⟩ := hpred
  have hmax := checkUserMax_ok_of_exists env.maxRatingsPerUser userId subject
    courseNumber m st.db r hex
  have hexf : st.db.ratings.find? (fun x => decide (x.createdBy = userId ∧
      x.subject = subject ∧ x.courseNumber = courseNumber ∧
      x.metricName = m)) = some r := hex
  have hfind7 : st.db.ratings.find? (fun x => decide (x.createdBy = userId ∧
      x.subject = r.subject ∧ x.courseNumber = r.courseNumber ∧
      x.semester = r.semester ∧ x.year = r.year ∧
      x.classNumber = r.classNumber ∧ x.metricName = r.metricName)) =
      some r := by
    refine find?_first_of_stronger
      (fun x => decide (x.createdBy = userId ∧ x.subject = subject ∧
        x.courseNumber = courseNumber ∧ x.metricName = m)) _ _ r ?_ hexf
      (by simp [hcb])
    intro x hq
    simp only [decide_eq_true_eq] at hq ⊢
    exact ⟨hq.1, hq.2.1.trans hsub, hq.2.2.1.trans hcn,
      hq.2.2.2.2.2.2.trans hmn⟩
  obtain ⟨aggs1, hdec, hdecSelf, hdecL, hdecF⟩ :=
    handle_dec_run r.classId r.courseId r.year r.semester r.subject
      r.courseNumber r.classNumber r.metricName r.value st.db.aggs oldRow
      hold holdpos
  have hne1 : ¬ (cd.classId = r.classId ∧ m = r.metricName ∧
      value = r.value) := fun h => hcls h.1
  have hnn1 : 0 ≤ lookupCount aggs1 cd.classId m value := by
    rw [hdecL cd.classId m value hne1]
    exact hnewnn
  obtain ⟨aggs2, hinc, hincSelf, hincL⟩ :=
    handle_inc_run cd.classId cd.courseId year semester subject courseNumber
      classNumber m value aggs1 (checkValueConstraint_mem_range m value hval)
      hnn1
  have hdelOps : deleteRatingOperations userId r.year r.semester r.subject
      r.courseNumber r.classNumber r.metricName st.db =
      .ok (r, ⟨st.db.ratings.filter (fun x => !(decide (x.id = r.id))),
        aggs1, st.db.nextId⟩) := by
    unfold deleteRatingOperations
    rw [hfind7]
    simp only [hdec]
  refine ⟨aggs2, ?_, ?_, ?_⟩
  · rw [createRating_checks_eq userId env year semester subject courseNumber
      classNumber m value st cd hu hval hcd hmax]
    rw [createRatingTxnBody_replace_run userId cd year semester subject
      courseNumber classNumber m value
      ({ st with trace := st.trace ++ [Event.txnStart] } : SysState V W U) r
      aggs1 aggs2 hu hex hterm hdelOps hinc]
    simp only [invalidateRatingsCaches]
  · rw [hincL r.classId r.metricName r.value (fun h => hcls h.1.symm)]
    exact hdecSelf
  · rw [hincSelf, hdecL cd.classId m value hne1]

/-- C5: resubmitting the same value for a course+metric the user already
rated in the same term (semester, year, classNumber unchanged) is a no-op:
the call succeeds and the database — the Rating row and every counter row —
is left unchanged, so a second identical submission produces no counter
change. -/
theorem claim_C5_idempotent_resubmission {V W U : Type} (userId : String)
    (env : Env) (year : Int)
    (semester subject courseNumber classNumber : String) (m : MetricName)
    (value : Int) (st : SysState V W U) (cd : ClassDoc) (r : Rating)
    (hu : ¬ userId = "")
    (hval : checkValueConstraint m value = .ok ())
    (hcd : getClassDocument env year semester subject courseNumber
      classNumber = .ok cd)
    (hex : checkRatingExists userId subject courseNumber m st.db = some r)
    (hsem : r.semester = semester) (hyear : r.year = year)
    (hcln : r.classNumber = classNumber) (hvaleq : r.value = value) :
    (createRating userId env year semester subject courseNumber classNumber
      m value st).1 = .ok true ∧
    (createRating userId env year semester subject courseNumber classNumber
      m value st).2.db = st.db := by
  have hmax := checkUserMax_ok_of_exists env.maxRatingsPerUser userId subject
    courseNumber m st.db r hex
  rw [createRating_checks_eq userId env year semester subject courseNumber
    classNumber m value st cd hu hval hcd hmax]
  have hnoterm : ¬ (r.semester ≠ semester ∨ r.year ≠ year ∨
      r.classNumber ≠ classNumber) := by
    push_neg
    exact ⟨hsem, hyear, hcln⟩
  have hbody : createRatingTxnBody userId cd year semester subject
      courseNumber classNumber m value
      ({ st with trace := st.trace ++ [Event.txnStart] } : SysState V W U) =
      (.ok (), { st with trace := st.trace ++ [Event.txnStart] }) := by
    unfold createRatingTxnBody
    rw [hex]
    simp only []
    rw [if_neg hnoterm]
    unfold handleExistingRating
    rw [if_pos hvaleq]
  rw [hbody]
  exact ⟨rfl, rfl⟩

/-- C5 witness: user "u" resubmits Usefulness 3 for the Spring 2024 offering
already rated with the same value; the database is unchanged. -/
theorem claim_C5_idempotent_resubmission_witness :
    (createRating "u" exEnv 2024 "Spring" "CS" "61A" "001"
      MetricName.Usefulness 3 exState).1 = .ok true ∧
    (createRating "u" exEnv 2024 "Spring" "CS" "61A" "001"
      MetricName.Usefulness 3 exState).2.db = exState.db :=
  claim_C5_idempotent_resubmission "u" exEnv 2024 "Spring" "CS" "61A" "001"
    MetricName.Usefulness 3 exState exClassSpring exRating (by decide)
    (by decide) (by decide) (by decide) (by decide) (by decide) (by decide)
    (by decide)

/-- C1: for a user holding a Rating for a course+metric in one term who
submits the same metric in a different term, `createRating` succeeds and, in
one atomic unit: the old Rating is deleted and its counter at the old
rating's classId decremented, a new Rating with the new value at the new
classId is created and that counter incremented, and exactly one live Rating
for `(user, course, metric)` remains — the new value at the new term. -/
theorem claim_C1_term_replace {V W U : Type} (userId : String) (env : Env)
    (year : Int) (semester subject courseNumber classNumber : String)
    (m : MetricName) (value : Int) (st : SysState V W U) (cd : ClassDoc)
    (r : Rating) (oldRow : AggRow)
    (hu : ¬ userId = "")
    (hval : checkValueConstraint m value = .ok ())
    (hcd : getClassDocument env year semester subject courseNumber
      classNumber = .ok cd)
    (hex : checkRatingExists userId subject courseNumber m st.db = some r)
    (honly : st.db.ratings.filter (fun x => decide (x.createdBy = userId ∧
      x.subject = subject ∧ x.courseNumber = courseNumber ∧
      x.metricName = m)) = [r])
    (hterm : r.semester ≠ semester ∨ r.year ≠ year ∨
      r.classNumber ≠ classNumber)
    (hold : findAgg r.classId r.metricName r.value st.db.aggs = some oldRow)
    (holdpos : 1 ≤ oldRow.categoryCount)
    (hcls : ¬ cd.classId = r.classId)
    (hnewnn : 0 ≤ lookupCount st.db.aggs cd.classId m value) :
    (createRating userId env year semester subject courseNumber classNumber
      m value st).1 = .ok true ∧
    (createRating userId env year semester subject courseNumber classNumber
        m value st).2.db.ratings =
      st.db.ratings.filter (fun x => !(decide (x.id = r.id))) ++
        [⟨st.db.nextId, userId, cd.classId, cd.courseId, subject,
          courseNumber, classNumber, semester, year, m, value⟩] ∧
    ((createRating userId env year semester subject courseNumber classNumber
        m value st).2.db.ratings).filter (fun x =>
        decide (x.createdBy = userId ∧ x.subject = subject ∧
          x.courseNumber = courseNumber ∧ x.metricName = m)) =
      [⟨st.db.nextId, userId, cd.classId, cd.courseId, subject, courseNumber,
        classNumber, semester, year, m, value⟩] ∧
    lookupCount (createRating userId env year semester subject courseNumber
        classNumber m value st).2.db.aggs r.classId r.metricName r.value =
      lookupCount st.db.aggs r.classId r.metricName r.value - 1 ∧
    lookupCount (createRating userId env year semester subject courseNumber
        classNumber m value st).2.db.aggs cd.classId m value =
      lookupCount st.db.aggs cd.classId m value + 1 := by
  obtain ⟨aggs2, heq, hL1, hL2⟩ := createRating_replace_run userId env year
    semester subject courseNumber classNumber m value st cd r oldRow hu hval
    hcd hex hterm hold holdpos hcls hnewnn
  rw [heq]
  refine ⟨rfl, rfl, ?_, hL1, hL2⟩
  show (st.db.ratings.filter (fun x => !(decide (x.id = r.id))) ++
      [(⟨st.db.nextId, userId, cd.classId, cd.courseId, subject, courseNumber,
        classNumber, semester, year, m, value⟩ : Rating)]).filter (fun x =>
      decide (x.createdBy = userId ∧ x.subject = subject ∧
        x.courseNumber = courseNumber ∧ x.metricName = m)) =
    [(⟨st.db.nextId, userId, cd.classId, cd.courseId, subject, courseNumber,
      classNumber, semester, year, m, value⟩ : Rating)]
  rw [List.filter_append, List.filter_filter]
  have h1 : st.db.ratings.filter (fun a =>
      decide (a.createdBy = userId ∧ a.subject = subject ∧
        a.courseNumber = courseNumber ∧ a.metricName = m) &&
      !(decide (a.id = r.id))) = [] := by
    refine List.filter_eq_nil_iff.mpr ?_
    intro a ha hcontra
    simp only [Bool.and_eq_true, decide_eq_true_eq, Bool.not_eq_true',
      decide_eq_false_iff_not] at hcontra
    obtain ⟨hP, hid⟩ := hcontra
    have hmem : a ∈ st.db.ratings.filter (fun x =>
        decide (x.createdBy = userId ∧ x.subject = subject ∧
          x.courseNumber = courseNumber ∧ x.metricName = m)) :=
      List.mem_filter.mpr ⟨ha, by
        simp [hP.1, hP.2.1, hP.2.2.1, hP.2.2.2]⟩
    rw [honly] at hmem
    exact hid (by rw [List.mem_singleton.mp hmem])
  rw [h1]
  simp

/-- C1 witness: user "u" re-rates Usefulness (3 in Spring 2024, then 5 in
Fall 2024): one Rating remains, the Spring counter falls by one, the Fall
counter rises by one. -/
theorem claim_C1_term_replace_witness :
    (createRating "u" exEnv 2024 "Fall" "CS" "61A" "001"
      MetricName.Usefulness 5 exState).1 = .ok true ∧
    (createRating "u" exEnv 2024 "Fall" "CS" "61A" "001"
        MetricName.Usefulness 5 exState).2.db.ratings =
      exState.db.ratings.filter (fun x => !(decide (x.id = exRating.id))) ++
        [⟨exState.db.nextId, "u", exClassFall.classId, exClassFall.courseId,
          "CS", "61A", "001", "Fall", 2024, MetricName.Usefulness, 5⟩] ∧
    ((createRating "u" exEnv 2024 "Fall" "CS" "61A" "001"
        MetricName.Usefulness 5 exState).2.db.ratings).filter (fun x =>
        decide (x.createdBy = "u" ∧ x.subject = "CS" ∧
          x.courseNumber = "61A" ∧ x.metricName = MetricName.Usefulness)) =
      [⟨exState.db.nextId, "u", exClassFall.classId, exClassFall.courseId,
        "CS", "61A", "001", "Fall", 2024, MetricName.Usefulness, 5⟩] ∧
    lookupCount (createRating "u" exEnv 2024 "Fall" "CS" "61A" "001"
        MetricName.Usefulness 5 exState).2.db.aggs exRating.classId
        exRating.metricName exRating.value =
      lookupCount exState.db.aggs exRating.classId exRating.metricName
        exRating.value - 1 ∧
    lookupCount (createRating "u" exEnv 2024 "Fall" "CS" "61A" "001"
        MetricName.Usefulness 5 exState).2.db.aggs exClassFall.classId
        MetricName.Usefulness 5 =
      lookupCount exState.db.aggs exClassFall.classId MetricName.Usefulness
        5 + 1 :=
  claim_C1_term_replace "u" exEnv 2024 "Fall" "CS" "61A" "001"
    MetricName.Usefulness 5 exState exClassFall exRating exAggRow (by decide)
    (by decide) (by decide) (by decide) (by decide) (by decide) (by decide)
    (by decide) (by decide) (by decide)

/-- C8 counterexample: a successful different-term resubmission runs
`invalidateRatingsCaches` for the old rating's courseId inside the
transaction — the trace shows a cache invalidation before the commit — so
cache invalidation is not performed only after the atomic unit commits. -/
theorem claim_C8_counterexample :
    (createRating "u" exEnv 2024 "Fall" "CS" "61A" "001"
      MetricName.Usefulness 5 exState).1 = .ok true ∧
    (createRating "u" exEnv 2024 "Fall" "CS" "61A" "001"
        MetricName.Usefulness 5 exState).2.trace =
      [Event.txnStart, Event.cacheInvalidate "c1", Event.txnCommit,
        Event.cacheInvalidate "c1"] ∧
    invalidatesOnlyAfterCommit (createRating "u" exEnv 2024 "Fall" "CS" "61A"
      "001" MetricName.Usefulness 5 exState).2.trace = false :=
  ⟨by decide, by decide, by decide⟩

/-- C8 (amended): on `createRating`'s different-term replace path the nested
`deleteRating` invalidates the old rating's courseId caches inside the
transaction, before the commit; the new courseId's caches are invalidated
after the commit. -/
theorem claim_C8_invalidation_ordering {V W U : Type} (userId : String)
    (env : Env) (year : Int)
    (semester subject courseNumber classNumber : String) (m : MetricName)
    (value : Int) (st : SysState V W U) (cd : ClassDoc) (r : Rating)
    (oldRow : AggRow)
    (hu : ¬ userId = "")
    (hval : checkValueConstraint m value = .ok ())
    (hcd : getClassDocument env year semester subject courseNumber
      classNumber = .ok cd)
    (hex : checkRatingExists userId subject courseNumber m st.db = some r)
    (hterm : r.semester ≠ semester ∨ r.year ≠ year ∨
      r.classNumber ≠ classNumber)
    (hold : findAgg r.classId r.metricName r.value st.db.aggs = some oldRow)
    (holdpos : 1 ≤ oldRow.categoryCount)
    (hcls : ¬ cd.classId = r.classId)
    (hnewnn : 0 ≤ lookupCount st.db.aggs cd.classId m value) :
    (createRating userId env year semester subject courseNumber classNumber
      m value st).1 = .ok true ∧
    (createRating userId env year semester subject courseNumber classNumber
        m value st).2.trace =
      st.trace ++ [Event.txnStart, Event.cacheInvalidate r.courseId,
        Event.txnCommit, Event.cacheInvalidate cd.courseId] ∧
    (st.trace = [] →
      invalidatesOnlyAfterCommit (createRating userId env year semester
        subject courseNumber classNumber m value st).2.trace = false) := by
  obtain ⟨aggs2, heq, hL1, hL2⟩ := createRating_replace_run userId env year
    semester subject courseNumber classNumber m value st cd r oldRow hu hval
    hcd hex hterm hold holdpos hcls hnewnn
  rw [heq]
  refine ⟨rfl, by simp, ?_⟩
  intro h0
  show invalidatesOnlyAfterCommit ((((st.trace ++ [Event.txnStart]) ++
    [Event.cacheInvalidate r.courseId]) ++ [Event.txnCommit]) ++
    [Event.cacheInvalidate cd.courseId]) = false
  rw [h0]
  rfl

/-- C8 witness: the amended trace characterization at the fixture
replace-path run. -/
theorem claim_C8_invalidation_ordering_witness :
    (createRating "u" exEnv 2024 "Fall" "CS" "61A" "001"
      MetricName.Usefulness 5 exState).1 = .ok true ∧
    (createRating "u" exEnv 2024 "Fall" "CS" "61A" "001"
        MetricName.Usefulness 5 exState).2.trace =
      exState.trace ++ [Event.txnStart,
        Event.cacheInvalidate exRating.courseId, Event.txnCommit,
        Event.cacheInvalidate exClassFall.courseId] ∧
    (exState.trace = [] →
      invalidatesOnlyAfterCommit (createRating "u" exEnv 2024 "Fall" "CS"
        "61A" "001" MetricName.Usefulness 5 exState).2.trace = false) :=
  claim_C8_invalidation_ordering "u" exEnv 2024 "Fall" "CS" "61A" "001"
    MetricName.Usefulness 5 exState exClassFall exRating exAggRow (by decide)
    (by decide) (by decide) (by decide) (by decide) (by decide) (by decide)
    (by decide) (by decide)
